import Mathlib

/-!
Verification of the MAX6921 VFD driver (src/max6921.c, src/max6921.h).

The driver state, segment/grid tables and every public operation needed by
the claims are shallowly embedded below.  Machine integers (uint8_t,
uint16_t, uint32_t) are modelled as Nat; all the quantities the driver
computes stay far below 2^32, so no wrap-around modelling is needed.  The
SPI transport is modelled by the scratch bytes `spi_data` plus a counter
`tx_count` of calls to spi_write_blocking (the observable of "performs a
transmission").  Pointer arguments are modelled as Option (None = NULL);
the out-pointer of vfd_read_segments is modelled by a Bool flag saying
whether NULL was passed, with the value the C code would store returned
as an Option Nat.
-/

/-- Error codes, vfd_error_t from max6921.h lines 30-37. -/
inductive vfd_error where
  | VFD_OK
  | VFD_ERR_INVALID_PARAM
  | VFD_ERR_NOT_INITIALIZED
  | VFD_ERR_INVALID_GRID
  | VFD_ERR_INVALID_SEGMENT
  | VFD_ERR_HARDWARE
deriving DecidableEq

open vfd_error

/-- Configuration structure, vfd_config_t from max6921.h lines 40-46. -/
structure vfd_config_t where
  spi_baudrate : Nat
  pin_spi_tx : Nat
  pin_spi_clk : Nat
  pin_latch : Nat
  refresh_interval_us : Nat
deriving DecidableEq

/-- Segment pattern constants, vfd_segment_pattern_t from max6921.h lines 49-63. -/
def VFD_DIGIT_0 : Nat := 0b00111111

def VFD_DIGIT_1 : Nat := 0b00000110

def VFD_DIGIT_2 : Nat := 0b01011011

def VFD_DIGIT_3 : Nat := 0b01001111

def VFD_DIGIT_4 : Nat := 0b01100110

def VFD_DIGIT_5 : Nat := 0b01101101

def VFD_DIGIT_6 : Nat := 0b01111101

def VFD_DIGIT_7 : Nat := 0b00000111

def VFD_DIGIT_8 : Nat := 0b01111111

def VFD_DIGIT_9 : Nat := 0b01101111

def VFD_SYMBOL_DOT : Nat := 0b10000000

def VFD_SYMBOL_DASH : Nat := 0b01000000

def VFD_BLANK : Nat := 0b00000000

/-- Grid control patterns, GRID_PATTERNS table from max6921.c lines 22-32. -/
def GRID_PATTERNS : List Nat :=
  [0b100000000,
   0b010000000,
   0b001000000,
   0b000100000,
   0b000010000,
   0b000001000,
   0b000000100,
   0b000000010,
   0b000000001]

/-- Digit to segment mapping, DIGIT_PATTERNS table from max6921.c lines 35-49. -/
def DIGIT_PATTERNS : List Nat :=
  [VFD_DIGIT_0, VFD_DIGIT_1, VFD_DIGIT_2, VFD_DIGIT_3, VFD_DIGIT_4,
   VFD_DIGIT_5, VFD_DIGIT_6, VFD_DIGIT_7, VFD_DIGIT_8, VFD_DIGIT_9,
   VFD_SYMBOL_DOT, VFD_SYMBOL_DASH, VFD_BLANK]

/-- Driver state, vfd_driver_state_t from max6921.c lines 13-19.  The
display buffer (uint8_t[9] in C) is a list of bytes; `tx_count` counts
spi_write_blocking calls and models the external transport observable. -/
structure vfd_driver_state_t where
  initialized : Bool
  config : vfd_config_t
  display_buffer : List Nat
  spi_data : Nat × Nat × Nat
  tx_count : Nat
deriving DecidableEq

/-- Grid index validation, _is_valid_grid from max6921.c lines 59-61. -/
def _is_valid_grid (grid : Nat) : Bool := grid < 9

/-- Segment validation, _is_valid_segment from max6921.c lines 64-67:
every 8-bit pattern is accepted. -/
def _is_valid_segment (_segment : Nat) : Bool := true

/-- The three SPI bytes computed by _write_vfd_raw, max6921.c lines 85-89:
combined_data = (GRID_PATTERNS[grid] << 8) | segments, split into bytes
most-significant byte first (command bits 19-17 are 0 here). -/
def writeVfdRawBytes (grid segments : Nat) : Nat × Nat × Nat :=
  let combined_data := (GRID_PATTERNS.getD grid 0) <<< 8 ||| segments
  ((combined_data >>> 16) &&& 0xFF,
   (combined_data >>> 8) &&& 0xFF,
   combined_data &&& 0xFF)

/-- Stateful _write_vfd_raw, max6921.c lines 80-96: validates the grid
(silently returning on failure), stores the three bytes in spi_data, and
transmits them (tx_count increments; the latch pulse follows). -/
def _write_vfd_raw (grid segments : Nat) (s : vfd_driver_state_t) : vfd_driver_state_t :=
  if !(_is_valid_grid grid) then s
  else { s with spi_data := writeVfdRawBytes grid segments,
                tx_count := s.tx_count + 1 }

/-- Default configuration, vfd_default_config from max6921.c lines 118-127. -/
def vfd_default_config : vfd_config_t :=
  { spi_baudrate := 2000000,
    pin_spi_tx := 11,
    pin_spi_clk := 10,
    pin_latch := 13,
    refresh_interval_us := 1500 }

/-- vfd_clear, max6921.c lines 225-228: memsets the whole buffer to
VFD_BLANK and returns VFD_OK.  Note: the C function performs no
initialization check. -/
def vfd_clear (s : vfd_driver_state_t) : vfd_error × vfd_driver_state_t :=
  (VFD_OK, { s with display_buffer := List.replicate 9 VFD_BLANK })

/-- vfd_init, max6921.c lines 129-154.  The argument `actual_baudrate`
models the value spi_init returns inside _init_gpio (max6921.c lines
99-114); the GPIO configuration calls have no effect on the modelled
state. -/
def vfd_init (config : Option vfd_config_t) (actual_baudrate : Nat)
    (s : vfd_driver_state_t) : vfd_error × vfd_driver_state_t :=
  if s.initialized then (VFD_OK, s)
  else
    match config with
    | none =>
        let s1 := { s with config := vfd_default_config }
        if actual_baudrate = 0 then (VFD_ERR_HARDWARE, s1)
        else (VFD_OK, { (vfd_clear s1).2 with initialized := true })
    | some cfg =>
        if cfg.spi_baudrate = 0 ∨ cfg.refresh_interval_us = 0 then
          (VFD_ERR_INVALID_PARAM, s)
        else
          let s1 := { s with config := cfg }
          if actual_baudrate = 0 then (VFD_ERR_HARDWARE, s1)
          else (VFD_OK, { (vfd_clear s1).2 with initialized := true })

/-- vfd_write_segments, max6921.c lines 174-189. -/
def vfd_write_segments (grid segments : Nat) (s : vfd_driver_state_t) :
    vfd_error × vfd_driver_state_t :=
  if !s.initialized then (VFD_ERR_NOT_INITIALIZED, s)
  else if !(_is_valid_grid grid) then (VFD_ERR_INVALID_GRID, s)
  else if !(_is_valid_segment segments) then (VFD_ERR_INVALID_SEGMENT, s)
  else (VFD_OK, { s with display_buffer := s.display_buffer.set grid segments })

/-- vfd_read_segments, max6921.c lines 191-206.  `segments_is_null` models
passing NULL for the out-pointer; the value stored through the pointer is
returned as an Option Nat. -/
def vfd_read_segments (grid : Nat) (segments_is_null : Bool)
    (s : vfd_driver_state_t) : vfd_error × Option Nat × vfd_driver_state_t :=
  if !s.initialized then (VFD_ERR_NOT_INITIALIZED, none, s)
  else if !(_is_valid_grid grid) then (VFD_ERR_INVALID_GRID, none, s)
  else if segments_is_null then (VFD_ERR_INVALID_PARAM, none, s)
  else (VFD_OK, some (s.display_buffer.getD grid 0), s)

/-- vfd_write_digit, max6921.c lines 208-223. -/
def vfd_write_digit (grid digit : Nat) (s : vfd_driver_state_t) :
    vfd_error × vfd_driver_state_t :=
  if !s.initialized then (VFD_ERR_NOT_INITIALIZED, s)
  else if !(_is_valid_grid grid) then (VFD_ERR_INVALID_GRID, s)
  else if digit > 9 then (VFD_ERR_INVALID_PARAM, s)
  else (VFD_OK, { s with display_buffer :=
                    s.display_buffer.set grid (DIGIT_PATTERNS.getD digit 0) })

/-- vfd_refresh, max6921.c lines 230-241: for grid 0..8 in order, transmit
the buffered pattern via _write_vfd_raw (the sleep between grids has no
state effect). -/
def vfd_refresh (s : vfd_driver_state_t) : vfd_error × vfd_driver_state_t :=
  if !s.initialized then (VFD_ERR_NOT_INITIALIZED, s)
  else (VFD_OK, (List.range 9).foldl
         (fun t grid => _write_vfd_raw grid (t.display_buffer.getD grid 0) t) s)

/-- Character-processing loop of vfd_write_string, max6921.c lines 254-276:
digits are written through vfd_write_digit (propagating any error) and
advance the cursor; a dash or space writes directly and advances; a dot
ORs the decimal-point bit into the previous grid without advancing (no-op
at cursor 0); anything else is skipped.  The loop stops at the end of the
string or once the cursor reaches 9. -/
def write_string_loop : List Char → Nat → vfd_driver_state_t →
    vfd_error × vfd_driver_state_t
  | [], _, s => (VFD_OK, s)
  | c :: rest, grid, s =>
    if grid < 9 then
      if '0' ≤ c ∧ c ≤ '9' then
        match vfd_write_digit grid (c.toNat - '0'.toNat) s with
        | (VFD_OK, s1) => write_string_loop rest (grid + 1) s1
        | (err, s1) => (err, s1)
      else if c = '-' then
        write_string_loop rest (grid + 1)
          { s with display_buffer := s.display_buffer.set grid VFD_SYMBOL_DASH }
      else if c = '.' then
        write_string_loop rest grid
          (if grid > 0 then
            let dotted := (s.display_buffer.getD (grid - 1) 0) ||| VFD_SYMBOL_DOT
            { s with display_buffer := s.display_buffer.set (grid - 1) dotted }
          else s)
      else if c = ' ' then
        write_string_loop rest (grid + 1)
          { s with display_buffer := s.display_buffer.set grid VFD_BLANK }
      else
        write_string_loop rest grid s
    else (VFD_OK, s)

/-- vfd_write_string, max6921.c lines 243-279: NULL and initialization
checks, then clear, then the character loop from cursor 0. -/
def vfd_write_string (str : Option (List Char)) (s : vfd_driver_state_t) :
    vfd_error × vfd_driver_state_t :=
  if !s.initialized then (VFD_ERR_NOT_INITIALIZED, s)
  else
    match str with
    | none => (VFD_ERR_INVALID_PARAM, s)
    | some cs => write_string_loop cs 0 (vfd_clear s).2

/-- vfd_get_buffer, max6921.c lines 281-286: NULL when not initialized,
otherwise the buffer. -/
def vfd_get_buffer (s : vfd_driver_state_t) : Option (List Nat) :=
  if !s.initialized then none else some s.display_buffer

/-- vfd_fill_buffer, max6921.c lines 288-295. -/
def vfd_fill_buffer (segments : Nat) (s : vfd_driver_state_t) :
    vfd_error × vfd_driver_state_t :=
  if !s.initialized then (VFD_ERR_NOT_INITIALIZED, s)
  else (VFD_OK, { s with display_buffer := List.replicate 9 segments })

/-- The three SPI bytes computed by vfd_send_control_command, max6921.c
lines 315-319: control_word = command << 17, split most-significant byte
first (grid and segment fields are zero). -/
def sendControlCommandBytes (command : Nat) : Nat × Nat × Nat :=
  let control_word := command <<< 17
  ((control_word >>> 16) &&& 0xFF,
   (control_word >>> 8) &&& 0xFF,
   control_word &&& 0xFF)

/-- vfd_send_control_command, max6921.c lines 297-328.  The cmd struct
holds a single byte, so the pointer argument is modelled as Option Nat. -/
def vfd_send_control_command (cmd : Option Nat) (s : vfd_driver_state_t) :
    vfd_error × vfd_driver_state_t :=
  if !s.initialized then (VFD_ERR_NOT_INITIALIZED, s)
  else
    match cmd with
    | none => (VFD_ERR_INVALID_PARAM, s)
    | some c =>
        if c > 7 then (VFD_ERR_INVALID_PARAM, s)
        else (VFD_OK, { s with spi_data := sendControlCommandBytes c,
                               tx_count := s.tx_count + 1 })

/-- Value of a 3-byte frame reassembled most-significant byte first:
byte 0 carries bits 23-16, byte 1 bits 15-8, byte 2 bits 7-0. -/
def frameValue (b : Nat × Nat × Nat) : Nat :=
  b.1 * 65536 + b.2.1 * 256 + b.2.2

/-- Bit-unpacking of the segment field from a 3-byte frame (bits 7-0). -/
def unpackSegments (b : Nat × Nat × Nat) : Nat :=
  frameValue b &&& 0xFF

/-- Bit-unpacking of the 9-bit grid mask from a 3-byte frame (bits 16-8). -/
def unpackGridMask (b : Nat × Nat × Nat) : Nat :=
  (frameValue b >>> 8) &&& 0x1FF

/-- Grid index recovered from the one-hot mask of a frame: the index i in
0..8 whose bit (8 - i) is set. -/
def unpackGrid (b : Nat × Nat × Nat) : Nat :=
  (List.range 9).findIdx (fun i => (unpackGridMask b).testBit (8 - i))

/-- Modelled from the spec, section 4.3 only (NOT from the code): the
packing the spec describes, with the 20-bit word left-shifted by 4 so the
4 low bits of the 24-bit field are the padding.  Defined solely to compare
the spec's description against the code's actual packing. -/
def pack_spec_shift4 (command grid_mask segments : Nat) : Nat × Nat × Nat :=
  let w := ((command <<< 17) ||| (grid_mask <<< 8) ||| segments) <<< 4
  ((w >>> 16) &&& 0xFF, (w >>> 8) &&& 0xFF, w &&& 0xFF)

/-- A concrete freshly initialized driver state (blank buffer, default
configuration), used to instantiate theorems. -/
def initState : vfd_driver_state_t :=
  { initialized := true,
    config := vfd_default_config,
    display_buffer := List.replicate 9 0,
    spi_data := (0, 0, 0),
    tx_count := 0 }

/-- A concrete uninitialized driver state with a nonblank buffer, used to
instantiate theorems about the uninitialized path. -/
def uninitState : vfd_driver_state_t :=
  { initialized := false,
    config := vfd_default_config,
    display_buffer := List.replicate 9 255,
    spi_data := (0, 0, 0),
    tx_count := 0 }

set_option maxRecDepth 8000

/-- Helper: reading back the position just written in a list. -/
theorem list_getD_set_eq (l : List Nat) (i a : Nat) (h : i < l.length) :
    (l.set i a).getD i 0 = a := by
  induction l generalizing i with
  | nil => simp at h
  | cons x xs ih =>
    cases i with
    | zero => simp [List.set, List.getD]
    | succ n =>
      simp only [List.set, List.getD_cons_succ]
      exact ih n (by simpa using h)

/-- Helper: positions other than the one written are unchanged. -/
theorem list_getD_set_ne (l : List Nat) (i j a : Nat) (h : i ≠ j) :
    (l.set i a).getD j 0 = l.getD j 0 := by
  induction l generalizing i j with
  | nil => simp [List.set]
  | cons x xs ih =>
    cases i with
    | zero =>
      cases j with
      | zero => exact absurd rfl h
      | succ m => simp [List.set]
    | succ n =>
      cases j with
      | zero => simp [List.set]
      | succ m =>
        simp only [List.set, List.getD_cons_succ]
        exact ih n m (by omega)

/-- C1, counterexample: the claim says the packer left-shifts the 20-bit
word by 4 before splitting it into bytes, so that the 4 low bits of the
24-bit value are padding.  The code does not shift: at command 0, grid 0,
segments 0 the code emits (0x01, 0, 0) while the claimed packing would
emit (0x10, 0, 0), and at command 1 the code emits (0x02, 0, 0) while the
claimed packing would emit (0x20, 0, 0). -/
theorem C1_counterexample :
    writeVfdRawBytes 0 0 ≠ pack_spec_shift4 0 (GRID_PATTERNS.getD 0 0) 0 ∧
    sendControlCommandBytes 1 ≠ pack_spec_shift4 1 0 0 := by decide

/-- C1, amended: for every command in [0,7], every grid mask produced by
the driver and every 8-bit segment pattern, the packer forms the 20-bit
word (command << 17) | (grid_mask << 8) | segment_pattern and splits it,
WITHOUT any further shift, into 3 bytes most-significant byte first:
reassembling byte0*2^16 + byte1*2^8 + byte2 recovers exactly that word,
and the word is below 2^20, so the 4 HIGH bits of the 24-bit value are
the zero padding (transmitted first, MSB-first) — not the 4 low bits as
the claim states. -/
theorem C1_pack_layout :
    (∀ g, g < 9 → ∀ seg, seg < 256 →
      (writeVfdRawBytes g seg).1 < 256 ∧ (writeVfdRawBytes g seg).2.1 < 256 ∧
      (writeVfdRawBytes g seg).2.2 < 256 ∧
      frameValue (writeVfdRawBytes g seg) =
        (0 <<< 17) ||| ((GRID_PATTERNS.getD g 0) <<< 8) ||| seg ∧
      ((0 <<< 17) ||| ((GRID_PATTERNS.getD g 0) <<< 8) ||| seg) < 2 ^ 20) ∧
    (∀ c, c < 8 →
      (sendControlCommandBytes c).1 < 256 ∧ (sendControlCommandBytes c).2.1 < 256 ∧
      (sendControlCommandBytes c).2.2 < 256 ∧
      frameValue (sendControlCommandBytes c) = (c <<< 17) ||| (0 <<< 8) ||| 0 ∧
      ((c <<< 17) ||| (0 <<< 8) ||| 0) < 2 ^ 20) := by decide

/-- C1, witness: the amended packing equation instantiated at grid 0 with
segment pattern 63. -/
theorem C1_pack_layout_witness :
    frameValue (writeVfdRawBytes 0 63) = (0 <<< 17) ||| ((GRID_PATTERNS.getD 0 0) <<< 8) ||| 63 :=
  ((C1_pack_layout.1 0 (by decide) 63 (by decide)).2.2.2).1

/-- C2: for every grid index in [0,8] and every 8-bit pattern P, packing
command 0 with the grid's one-hot mask and P into the 3-byte frame and
bit-unpacking the frame recovers exactly the grid index and P; hence the
packing is injective over its declared input range. -/
theorem C2_roundtrip :
    (∀ g, g < 9 → ∀ P, P < 256 →
      unpackGrid (writeVfdRawBytes g P) = g ∧ unpackSegments (writeVfdRawBytes g P) = P) ∧
    (∀ g1, g1 < 9 → ∀ g2, g2 < 9 → ∀ P1, P1 < 256 → ∀ P2, P2 < 256 →
      writeVfdRawBytes g1 P1 = writeVfdRawBytes g2 P2 → g1 = g2 ∧ P1 = P2) := by
  have h : ∀ g, g < 9 → ∀ P, P < 256 →
      unpackGrid (writeVfdRawBytes g P) = g ∧ unpackSegments (writeVfdRawBytes g P) = P := by
    decide
  refine ⟨h, ?_⟩
  intro g1 hg1 g2 hg2 P1 hP1 P2 hP2 he
  have a1 := h g1 hg1 P1 hP1
  have a2 := h g2 hg2 P2 hP2
  rw [he] at a1
  exact ⟨a1.1.symm.trans a2.1, a1.2.symm.trans a2.2⟩

/-- C2, witness: the round-trip instantiated at grid 3, pattern 119. -/
theorem C2_roundtrip_witness :
    unpackGrid (writeVfdRawBytes 3 119) = 3 ∧ unpackSegments (writeVfdRawBytes 3 119) = 119 :=
  C2_roundtrip.1 3 (by decide) 119 (by decide)

/-- C3: packing command code 5 with zero grid mask and zero segment field
(that is exactly what vfd_send_control_command transmits) yields the frame
0x0A 0x00 0x00; its 4 pad bits (bits 23-20, transmitted first) are zero,
and after stripping them the top 3 of the remaining 20 bits equal 5 while
the other 17 bits are all zero. -/
theorem C3_command5_frame :
    sendControlCommandBytes 5 = (0x0A, 0x00, 0x00) ∧
    frameValue (sendControlCommandBytes 5) >>> 20 = 0 ∧
    (frameValue (sendControlCommandBytes 5) % 2 ^ 20) >>> 17 = 5 ∧
    frameValue (sendControlCommandBytes 5) % 2 ^ 17 = 0 := by decide

/-- C4, counterexample: the claim includes vfd_clear among the operations
that fail with NotInitialized before initialization, but vfd_clear
performs no initialization check: on an uninitialized state with a
nonblank buffer it returns VFD_OK and blanks the buffer. -/
theorem C4_counterexample :
    (vfd_clear uninitState).1 = VFD_OK ∧
    (vfd_clear uninitState).1 ≠ VFD_ERR_NOT_INITIALIZED ∧
    (vfd_clear uninitState).2.display_buffer ≠ uninitState.display_buffer := by decide

/-- C4, amended: every buffer or refresh operation EXCEPT clear
(write_segments, write_digit, write_string, read_segments, refresh, fill,
send_command) invoked while the driver is not initialized returns
NotInitialized and leaves the whole state — display buffer, scratch bytes
and transport counter — unchanged, so no transmission happens; vfd_clear
instead always returns Ok and blanks the buffer, initialized or not. -/
theorem C4_not_initialized :
    ∀ s : vfd_driver_state_t, s.initialized = false →
    ∀ (grid seg digit fillv : Nat) (str : Option (List Char))
      (pn : Bool) (cmd : Option Nat),
      vfd_write_segments grid seg s = (VFD_ERR_NOT_INITIALIZED, s) ∧
      vfd_write_digit grid digit s = (VFD_ERR_NOT_INITIALIZED, s) ∧
      vfd_write_string str s = (VFD_ERR_NOT_INITIALIZED, s) ∧
      vfd_read_segments grid pn s = (VFD_ERR_NOT_INITIALIZED, none, s) ∧
      vfd_refresh s = (VFD_ERR_NOT_INITIALIZED, s) ∧
      vfd_fill_buffer fillv s = (VFD_ERR_NOT_INITIALIZED, s) ∧
      vfd_send_control_command cmd s = (VFD_ERR_NOT_INITIALIZED, s) ∧
      vfd_clear s = (VFD_OK, { s with display_buffer := List.replicate 9 VFD_BLANK }) := by
  intro s h grid seg digit fillv str pn cmd
  simp [vfd_write_segments, vfd_write_digit, vfd_write_string, vfd_read_segments,
        vfd_refresh, vfd_fill_buffer, vfd_send_control_command, vfd_clear, h]

/-- C4, witness: write_segments on a concrete uninitialized state. -/
theorem C4_not_initialized_witness :
    vfd_write_segments 0 255 uninitState = (VFD_ERR_NOT_INITIALIZED, uninitState) :=
  (C4_not_initialized uninitState rfl 0 255 0 0 none false none).1

/-- C5: for every grid index i in [0,8] the selector table holds exactly
2^(8-i), the one-hot 9-bit mask with bit (8-i) set; for every index ≥ 9
validation fails and the driver signals InvalidGrid (write_segments) or
silently refuses to transmit (_write_vfd_raw leaves the state untouched)
— no wrapping or clamping. -/
theorem C5_grid_selector :
    (∀ i, i < 9 → GRID_PATTERNS.getD i 0 = 2 ^ (8 - i)) ∧
    (∀ i, 9 ≤ i → _is_valid_grid i = false) ∧
    (∀ i, 9 ≤ i → ∀ seg (s : vfd_driver_state_t), s.initialized = true →
      vfd_write_segments i seg s = (VFD_ERR_INVALID_GRID, s)) ∧
    (∀ i, 9 ≤ i → ∀ seg s, _write_vfd_raw i seg s = s) := by
  refine ⟨by decide, ?_, ?_, ?_⟩
  · intro i hi
    simp only [_is_valid_grid, decide_eq_false_iff_not]
    omega
  · intro i hi seg s hs
    have hv : _is_valid_grid i = false := by
      simp only [_is_valid_grid, decide_eq_false_iff_not]; omega
    simp [vfd_write_segments, hs, hv]
  · intro i hi seg s
    have hv : _is_valid_grid i = false := by
      simp only [_is_valid_grid, decide_eq_false_iff_not]; omega
    simp [_write_vfd_raw, hv]

/-- C5, witness: grid 0 selects bit 8. -/
theorem C5_grid_selector_witness :
    GRID_PATTERNS.getD 0 0 = 2 ^ (8 - 0) :=
  C5_grid_selector.1 0 (by decide)

/-- C6: in write_string a dot never advances the grid cursor — processing
a dot at any cursor position below 9 continues at the same cursor, with
the decimal-point bit ORed into the previous grid's pattern when the
cursor is positive and the buffer untouched when it is 0; and concretely
write_string "1.2" yields grid 0 = encode(1) OR the dot bit (0x86),
grid 1 = encode(2) (0x5B), all other grids blank. -/
theorem C6_dot_no_advance :
    (∀ (rest : List Char) (grid : Nat) (s : vfd_driver_state_t), grid < 9 →
      write_string_loop ('.' :: rest) grid s =
        write_string_loop rest grid
          (if grid > 0 then { s with display_buffer := s.display_buffer.set (grid - 1) ((s.display_buffer.getD (grid - 1) 0) ||| VFD_SYMBOL_DOT) } else s)) ∧
    vfd_write_string (some ['1', '.', '2']) initState =
      (VFD_OK, { initState with display_buffer := [0x86, 0x5B, 0, 0, 0, 0, 0, 0, 0] }) := by
  constructor
  · intro rest grid s h
    simp +decide [write_string_loop, h]
  · decide

/-- C6, witness: a single dot processed at cursor 1 on the fresh state. -/
theorem C6_dot_no_advance_witness :
    write_string_loop ['.'] 1 initState =
      write_string_loop [] 1
        (if 1 > 0 then { initState with display_buffer := initState.display_buffer.set 0 ((initState.display_buffer.getD 0 0) ||| VFD_SYMBOL_DOT) } else initState) :=
  C6_dot_no_advance.1 [] 1 initState (by decide)

/-- C7: on an initialized state (with the well-formed 9-cell buffer),
write_digit with grid ≥ 9 fails with InvalidGrid leaving the state
unchanged; with a valid grid and digit > 9 it fails with InvalidParam
leaving the state unchanged; with valid grid and digit it returns Ok,
stores encode(digit) = DIGIT_PATTERNS[digit] at the grid cell, and leaves
every other cell unchanged. -/
theorem C7_write_digit :
    ∀ (s : vfd_driver_state_t), s.initialized = true → s.display_buffer.length = 9 →
    ∀ grid digit : Nat,
      (9 ≤ grid → vfd_write_digit grid digit s = (VFD_ERR_INVALID_GRID, s)) ∧
      (grid < 9 → 9 < digit → vfd_write_digit grid digit s = (VFD_ERR_INVALID_PARAM, s)) ∧
      (grid < 9 → digit ≤ 9 →
        (vfd_write_digit grid digit s).1 = VFD_OK ∧
        (vfd_write_digit grid digit s).2.display_buffer.getD grid 0 = DIGIT_PATTERNS.getD digit 0 ∧
        (∀ j, j < 9 → j ≠ grid →
          (vfd_write_digit grid digit s).2.display_buffer.getD j 0 = s.display_buffer.getD j 0)) := by
  intro s hinit hlen grid digit
  refine ⟨?_, ?_, ?_⟩
  · intro hg
    have hv : _is_valid_grid grid = false := by
      simp only [_is_valid_grid, decide_eq_false_iff_not]; omega
    simp [vfd_write_digit, hinit, hv]
  · intro hg hd
    have hv : _is_valid_grid grid = true := by
      simp only [_is_valid_grid, decide_eq_true_eq]; omega
    simp [vfd_write_digit, hinit, hv, hd]
  · intro hg hd
    have hv : _is_valid_grid grid = true := by
      simp only [_is_valid_grid, decide_eq_true_eq]; omega
    have hnd : ¬ digit > 9 := by omega
    refine ⟨by simp [vfd_write_digit, hinit, hv, hnd], ?_, ?_⟩
    · simp only [vfd_write_digit, hinit, hv, hnd]
      simp only [Bool.not_true, Bool.false_eq_true, if_false, if_neg hnd]
      exact list_getD_set_eq _ _ _ (by omega)
    · intro j hj hne
      simp only [vfd_write_digit, hinit, hv, hnd]
      simp only [Bool.not_true, Bool.false_eq_true, if_false, if_neg hnd]
      exact list_getD_set_ne _ _ _ _ (by omega)

/-- C7, witness: writing digit 5 at grid 0 of the fresh state succeeds. -/
theorem C7_write_digit_witness :
    (vfd_write_digit 0 5 initState).1 = VFD_OK :=
  ((C7_write_digit initState rfl (by decide) 0 5).2.2 (by decide) (by decide)).1

/-- C8: calling vfd_init while the driver is already initialized returns
Ok with the whole driver state — flag, configuration and display buffer —
exactly unchanged, for any config argument and any hardware response. -/
theorem C8_init_idempotent :
    ∀ (s : vfd_driver_state_t), s.initialized = true →
    ∀ (config : Option vfd_config_t) (actual_baudrate : Nat),
      vfd_init config actual_baudrate s = (VFD_OK, s) := by
  intro s h config baud
  simp [vfd_init, h]

/-- C8, witness: re-initializing the fresh initialized state with the
default (NULL) config is a no-op returning Ok. -/
theorem C8_init_idempotent_witness :
    vfd_init none 2000000 initState = (VFD_OK, initState) :=
  C8_init_idempotent initState rfl none 2000000

/-- C9: on every initialized state, read_segments with an in-range grid
and a NULL out-pointer, write_string with a NULL string, and
send_control_command with a NULL command all return InvalidParam leaving
the state unchanged; and get_buffer returns NULL exactly when the driver
is not initialized. -/
theorem C9_null_rejection :
    ∀ s : vfd_driver_state_t,
      (s.initialized = true →
        (∀ grid, grid < 9 → vfd_read_segments grid true s = (VFD_ERR_INVALID_PARAM, none, s)) ∧
        vfd_write_string none s = (VFD_ERR_INVALID_PARAM, s) ∧
        vfd_send_control_command none s = (VFD_ERR_INVALID_PARAM, s)) ∧
      (vfd_get_buffer s = none ↔ s.initialized = false) := by
  intro s
  constructor
  · intro h
    refine ⟨?_, ?_, ?_⟩
    · intro grid hg
      have hv : _is_valid_grid grid = true := by
        simp only [_is_valid_grid, decide_eq_true_eq]; omega
      simp [vfd_read_segments, h, hv]
    · simp [vfd_write_string, h]
    · simp [vfd_send_control_command, h]
  · unfold vfd_get_buffer
    cases hs : s.initialized <;> simp

/-- C9, witness: a NULL string on the fresh initialized state. -/
theorem C9_null_rejection_witness :
    vfd_write_string none initState = (VFD_ERR_INVALID_PARAM, initState) :=
  ((C9_null_rejection initState).1 rfl).2.1

/-- C10: on every initialized state vfd_refresh returns Ok and leaves the
display buffer (all 9 cells), the configuration and the initialized flag
unchanged; its only effects are on the spi_data scratch bytes and on the
transport, to which it issues exactly 9 transmissions. -/
theorem C10_refresh_preserves :
    ∀ s : vfd_driver_state_t, s.initialized = true →
      (vfd_refresh s).1 = VFD_OK ∧
      (vfd_refresh s).2.display_buffer = s.display_buffer ∧
      (vfd_refresh s).2.config = s.config ∧
      (vfd_refresh s).2.initialized = true ∧
      (vfd_refresh s).2.tx_count = s.tx_count + 9 := by
  intro s h
  have hr : List.range 9 = [0, 1, 2, 3, 4, 5, 6, 7, 8] := by decide
  simp [vfd_refresh, h, hr, _write_vfd_raw, _is_valid_grid]

/-- C10, witness: refreshing the fresh initialized state returns Ok. -/
theorem C10_refresh_preserves_witness :
    (vfd_refresh initState).1 = VFD_OK :=
  (C10_refresh_preserves initState rfl).1
